import Mathlib

set_option maxHeartbeats 1000000
set_option maxRecDepth 8000

/-
Verification of admin_steroids/formatters.py, a module of admin column
formatters.  The module is dynamically typed, so values are embedded as a
small inductive type `PyValue`; code that can raise is embedded in the
error monad `M := Except String`, where an `error` value models an
uncaught exception carrying its string representation.  Floating point
values are modelled exactly by rationals; the percent-style string
formatting of the host language is modelled by `pyPrintfAux`, with the
rounding of the f conversion modelled by round half to even.
-/

/-- Values of the dynamically typed host language, as far as the module
touches them: `none` models the null singleton, `bool`, `int` and `rat`
the boolean and numeric types (floats are modelled exactly by rationals),
`str` strings, `obj` a database record with an `id` and named attributes,
and `manager` a related-record manager holding the related records. -/
inductive PyValue : Type where
  | none : PyValue
  | bool : Bool → PyValue
  | int : Int → PyValue
  | rat : Rat → PyValue
  | str : String → PyValue
  | obj : Int → List (String × PyValue) → PyValue
  | manager : List PyValue → PyValue

/-- Computation that may raise: `error` carries the string representation
of the exception. -/
abbrev M (α : Type) : Type := Except String α

/-- Name of the type of a value, used in exception messages. -/
def typeName : PyValue → String
  | .none => "NoneType"
  | .bool _ => "bool"
  | .int _ => "int"
  | .rat _ => "float"
  | .str _ => "str"
  | .obj _ _ => "object"
  | .manager _ => "Manager"

/-- Truthiness of a value, the bool(v) conversion. -/
def pyBool : PyValue → Bool
  | .none => false
  | .bool b => b
  | .int n => !(n == 0)
  | .rat q => !(q == 0)
  | .str s => !(s == "")
  | .obj _ _ => true
  | .manager _ => true

/-- String conversion str(v).  The rendering of floats and records is
only a placeholder: no claim depends on it. -/
def pyStr : PyValue → String
  | .none => "None"
  | .bool true => "True"
  | .bool false => "False"
  | .int n => toString n
  | .rat q => toString q
  | .str s => s
  | .obj i _ => "<object " ++ toString i ++ ">"
  | .manager l => "<manager " ++ toString l.length ++ ">"

/-- The comparison v < 0 with the cross-type semantics of the language
version the module targets: numbers compare numerically, the null value
is smaller than every number, values of the remaining types are larger
than numbers.  The comparison itself never raises. -/
def pyLt0 : PyValue → Bool
  | .none => true
  | .bool _ => false
  | .int n => decide (n < 0)
  | .rat q => decide (q < 0)
  | _ => false

/-- The statement v *= -1: negation for numbers, a string repeated a
negative number of times is empty, the rest raises a type error. -/
def pyMulNegOne : PyValue → M PyValue
  | .bool b => .ok (.int (-(if b then 1 else 0)))
  | .int n => .ok (.int (-n))
  | .rat q => .ok (.rat (-q))
  | .str _ => .ok (.str "")
  | v => .error ("unsupported operand type for *=: " ++ typeName v ++ " and int")

/-- The statement v *= 100: multiplication for numbers, repetition for
strings, the rest raises a type error. -/
def pyMul100 : PyValue → M PyValue
  | .bool b => .ok (.int (100 * (if b then 1 else 0)))
  | .int n => .ok (.int (n * 100))
  | .rat q => .ok (.rat (q * 100))
  | .str s => .ok (.str (String.join (List.replicate 100 s)))
  | v => .error ("unsupported operand type for *=: " ++ typeName v ++ " and int")

/-- Conversion demanded by the f format specifier: numbers and booleans
convert, everything else raises a type error. -/
def toFloatM : PyValue → M Rat
  | .bool b => .ok (if b then 1 else 0)
  | .int n => .ok n
  | .rat q => .ok q
  | v => .error ("float argument required, not " ++ typeName v)

/-- Conversion demanded by the d format specifier: integers and booleans
convert, floats truncate toward zero, everything else raises. -/
def pyToIntM : PyValue → M Int
  | .bool b => .ok (if b then 1 else 0)
  | .int n => .ok n
  | .rat q => .ok (q.num.tdiv q.den)
  | v => .error ("number is required, not " ++ typeName v)

/-- Exact numeric content of a value, when the value is of one of the two
numeric (non-boolean) types. -/
def numVal : PyValue → Option Rat
  | .int n => some n
  | .rat q => some q
  | _ => Option.none

/-- Floor of a rational as an integer (the denominator is positive). -/
def qfloor (q : Rat) : Int := q.num.fdiv q.den

/-- Round half to even, the rounding used by the float formatting of the
host runtime. -/
def rhe (q : Rat) : Int :=
  let f := qfloor q
  let r := q - f
  if r < 1 / 2 then f
  else if 1 / 2 < r then f + 1
  else if f % 2 = 0 then f else f + 1

/-- Pad a digit string with leading zeros up to length k. -/
def padZeros (k : Nat) (s : String) : String :=
  if s.length < k then String.mk (List.replicate (k - s.length) '0') ++ s else s

/-- Rendering of the %.df conversion on an exact numeric value: scale by
10 ^ d, round half to even, and place the decimal point.  The negative
zero of binary floats has no rational counterpart, so a value rounding
to zero is rendered without a sign. -/
def fixedRender (d : Nat) (q : Rat) : String :=
  let n := rhe (q * (10 : Rat) ^ d)
  let s := padZeros (d + 1) (toString n.natAbs)
  let ip := s.take (s.length - d)
  let fp := s.drop (s.length - d)
  (if n < 0 then "-" else "") ++ ip ++ (if d = 0 then "" else "." ++ fp)

/-- Comma insertion into a reversed digit list: after every third digit a
comma is inserted, provided more digits follow. -/
def commaChunk : List Char → List Char
  | a :: b :: c :: d :: rest => a :: b :: c :: ',' :: commaChunk (d :: rest)
  | l => l

/-- Insert thousands separating commas into a digit string. -/
def commafy (s : String) : String := String.mk (commaChunk s.data.reverse).reverse

/-- Rendering of the %.df conversion with thousands separating commas in
the integer part. -/
def fixedCommas (d : Nat) (q : Rat) : String :=
  let n := rhe (q * (10 : Rat) ^ d)
  let s := padZeros (d + 1) (toString n.natAbs)
  let ip := s.take (s.length - d)
  let fp := s.drop (s.length - d)
  (if n < 0 then "-" else "") ++ commafy ip ++ (if d = 0 then "" else "." ++ fp)

/-- The dollar template of DollarFormat.format, the string
"$%.&lt;decimals&gt;f" optionally wrapped in parentheses, kept in
structured form: literal text before the conversion, the number of
decimals of the conversion, literal text after the conversion. -/
structure FloatTemplate : Type where
  pre : String
  decimals : Nat
  post : String

/-- Application of a float template to a value, the expression
template % v of the source. -/
def applyFloatTemplate (t : FloatTemplate) (v : PyValue) : M String :=
  match toFloatM v with
  | .error e => .error e
  | .ok q => .ok (t.pre ++ fixedRender t.decimals q ++ t.post)

/-- Modelled from the spec: utils.FormatWithCommas is code of this
repository that is not among the sources (only its caller
DollarFormat.format is).  The spec promises thousands-separating commas
when commas is true, so the helper is modelled as the template applied
to the value with commas inserted into the integer part of the rendered
number. -/
def FormatWithCommas (t : FloatTemplate) (v : PyValue) : M String :=
  match toFloatM v with
  | .error e => .error e
  | .ok q => .ok (t.pre ++ fixedCommas t.decimals q ++ t.post)

/-- Spec side of the dollar rendering: the value rendered to d decimal
places, with thousands separating commas when configured. -/
def dollarBody (d : Nat) (commas : Bool) (x : Rat) : String :=
  if commas then fixedCommas d x else fixedRender d x

/-- Interpreter for percent-style string formatting over the template
characters, restricted to the directives the module uses: %%, %s, %d and
%.&lt;digit&gt;f.  Arguments are inserted verbatim and are not rescanned,
exactly as in the host language. -/
def pyPrintfAux : List Char → List PyValue → M (List Char)
  | [], args => if args.isEmpty then .ok [] else .error "not all arguments converted during string formatting"
  | c :: rest, args =>
    if c = '%' then
      match rest with
      | [] => .error "incomplete format"
      | c2 :: r2 =>
        if c2 = '%' then (fun t => '%' :: t) <$> pyPrintfAux r2 args
        else if c2 = 's' then
          match args with
          | [] => .error "not enough arguments for format string"
          | a :: a2 => (fun t => (pyStr a).data ++ t) <$> pyPrintfAux r2 a2
        else if c2 = 'd' then
          match args with
          | [] => .error "not enough arguments for format string"
          | a :: a2 =>
            Except.bind (pyToIntM a)
              (fun n => (fun t => (toString n).data ++ t) <$> pyPrintfAux r2 a2)
        else if c2 = '.' then
          match r2 with
          | dch :: c3 :: r3 =>
            if dch.isDigit && c3 = 'f' then
              match args with
              | [] => .error "not enough arguments for format string"
              | a :: a2 =>
                Except.bind (toFloatM a)
                  (fun q => (fun t => (fixedRender (dch.toNat - 48) q).data ++ t) <$> pyPrintfAux r3 a2)
            else .error "unsupported format character"
          | _ => .error "unsupported format character"
        else .error "unsupported format character"
    else (fun t => c :: t) <$> pyPrintfAux rest args

/-- Percent-style formatting of a template string against a list of
arguments. -/
def pyPrintf (t : String) (args : List PyValue) : M String :=
  match pyPrintfAux t.data args with
  | .error e => .error e
  | .ok l => .ok (String.mk l)

/-- The literal string returned for a null value when null handling is
enabled (NONE_STR of the source). -/
def NONE_STR : String := "(None)"

/-- Whether a value is the null singleton (the test v is None). -/
def isNone : PyValue → Bool
  | .none => true
  | _ => false

/-- Attribute lookup in the attribute list of a record. -/
def lookupAttr : List (String × PyValue) → String → Option PyValue
  | [], _ => Option.none
  | p :: rest, n => if p.1 = n then some p.2 else lookupAttr rest n

/-- The getattr builtin: fetching a named attribute of a record, raising
an attribute error when the record does not carry it or the value is not
a record. -/
def pyGetattr : PyValue → String → M PyValue
  | .obj _ attrs, n =>
    match lookupAttr attrs n with
    | some v => .ok v
    | Option.none => .error ("AttributeError: " ++ n)
  | v, n => .error ("AttributeError: " ++ typeName v ++ " object has no attribute " ++ n)

/-- The expression obj.id of AdminOneToManyLink.format. -/
def pyGetId : PyValue → M Int
  | .obj i _ => .ok i
  | v => .error ("AttributeError: " ++ typeName v ++ " object has no attribute id")

/-- The test hasattr(q, count): related managers have a count method, and
so do strings; the other embedded types do not. -/
def hasCountAttr : PyValue → Bool
  | .manager _ => true
  | .str _ => true
  | _ => false

/-- The call q.all(): a related manager yields its record list, any other
value raises an attribute error. -/
def pyAll : PyValue → M PyValue
  | .manager l => .ok (.manager l)
  | v => .error ("AttributeError: " ++ typeName v ++ " object has no attribute all")

/-- The call q.count() on the result of q.all(). -/
def pyCountM : PyValue → M Int
  | .manager l => .ok (l.length : Int)
  | v => .error ("AttributeError: " ++ typeName v ++ " object has no attribute count")

/-- The subscript q[0] on the result of q.all(). -/
def pyIndexZero : PyValue → M PyValue
  | .manager (x :: _) => .ok x
  | .manager [] => .error "IndexError: list index out of range"
  | v => .error ("TypeError: " ++ typeName v ++ " object is not subscriptable")

/-- The test count == 0 with cross-type equality semantics: numbers and
booleans compare numerically with 0, other types are never equal to 0. -/
def pyEqZeroB : PyValue → Bool
  | .int n => n == 0
  | .rat q => q == 0
  | .bool b => !b
  | _ => false

/-- Framework services the module calls: URL reversal
(urlresolvers.reverse), the admin change URL helper for a record, and
the configured media URL (settings.MEDIA_URL).  The admin change URL
helper lives in the repository module utils, absent from the sources;
per the spec it is one of the framework URL helpers, so it is kept
abstract as part of the environment. -/
structure Env : Type where
  reverse : String → M String
  get_admin_change_url : PyValue → M String
  media_url : String

/-- AdminFieldFormatter.call: fetch the value (the record itself at
object level), short circuit a null value when null handling is
configured, otherwise delegate to the format method of the subclass. -/
def fieldCall (object_level : Bool) (null : Bool) (name : String)
    (format : PyValue → M PyValue) (o : PyValue) : M PyValue :=
  match (if object_level then Except.ok o else pyGetattr o name) with
  | .error e => .error e
  | .ok v => if isNone v && null then .ok (.str NONE_STR) else format v

/-- Capitalize: first character uppercased, all following characters
lowercased. -/
def capitalizePy (s : String) : String :=
  match s.data with
  | [] => ""
  | c :: rest => String.mk (c.toUpper :: rest.map Char.toLower)

/-- Scan of the regular expression substitution replacing runs of
characters outside [0-9a-zA-Z] by one space: the flag records whether
the scan stands inside a run that has already produced its space. -/
def reSubAux : Bool → List Char → List Char
  | _, [] => []
  | inRun, c :: rest =>
    if c.isAlphanum then c :: reSubAux false rest
    else if inRun then reSubAux true rest
    else ' ' :: reSubAux true rest

/-- The substitution re.sub applied in AdminFieldFormatter.init: every
maximal run of characters outside [0-9a-zA-Z] becomes a single space. -/
def reSubNonAlnum (s : String) : String := String.mk (reSubAux false s.data)

/-- The title normalisation of AdminFieldFormatter.init: a title pair
(text, safe flag); a safe title is kept, any other title is normalised
by the regular expression substitution followed by capitalize. -/
def initShortDescription (t : String × Bool) : String × Bool :=
  if t.2 then t else (capitalizePy (reSubNonAlnum t.1), false)

/-- The effective column title of AdminFieldFormatter.init before
normalisation: an explicit short_description keyword wins, otherwise a
truthy title, otherwise the field name (the expression
kwargs.get(short_description, title or name)). -/
def effectiveTitle (name : String) (title : Option (String × Bool))
    (kwargs_sd : Option (String × Bool)) : String × Bool :=
  match kwargs_sd with
  | some v => v
  | Option.none =>
    match title with
    | some t => if t.1 = "" then (name, false) else t
    | Option.none => (name, false)

/-- Spec side of the title normalisation, following the words of the
claim: every character outside [0-9a-zA-Z] is first blanked to a space,
runs of spaces are then squeezed to a single space, and the result is
capitalized. -/
def blankNonAlnum (s : String) : List Char :=
  s.data.map (fun c => if c.isAlphanum then c else ' ')

/-- Squeeze runs of spaces to one space; the flag records whether the
previous character examined was a space. -/
def squeezeAux : Bool → List Char → List Char
  | _, [] => []
  | prev, c :: rest =>
    if c = ' ' then (if prev then squeezeAux true rest else ' ' :: squeezeAux true rest)
    else c :: squeezeAux false rest

/-- Spec side title normalisation: blank the characters outside
[0-9a-zA-Z], squeeze the space runs, capitalize. -/
def specNormalizeTitle (s : String) : String :=
  capitalizePy (String.mk (squeezeAux false (blankNonAlnum s)))

/-- Substitution of one character of NbspFormat: a space becomes the
entity string, any other character is kept. -/
def nbspSubst (c : Char) : List Char :=
  if c = ' ' then ("&nbsp;").data else [c]

/-- The replacement v.replace of NbspFormat.format: the pattern is the
single space character, so the replacement acts character by
character. -/
def nbspRender (s : String) : String :=
  String.mk (s.data.map nbspSubst).flatten

/-- Configuration of DollarFormat: the constructor arguments and class
attributes that rendering reads. -/
structure DollarFormat : Type where
  name : String
  null : Bool
  decimals : Nat
  align : String
  commas : Bool

/-- DollarFormat with its class attribute defaults: two decimals, right
alignment, commas enabled, no null handling. -/
def mkDollarFormat (name : String) : DollarFormat :=
  DollarFormat.mk name false 2 "right" true

/-- DollarFormat.format: build the dollar template, flip a negative value
and wrap the template in parentheses, render with or without commas, and
wrap the result in an alignment span.  The span is built by plain
concatenation after the value has been rendered, so the doubled percent
sign of the width declaration stays doubled in the output. -/
def DollarFormat.format (f : DollarFormat) (v : PyValue) : M PyValue :=
  match (if pyLt0 v
    then (fun w => (w, FloatTemplate.mk "($" f.decimals ")")) <$> pyMulNegOne v
    else .ok (v, FloatTemplate.mk "$" f.decimals "")) with
  | .error e => .error e
  | .ok vt =>
    match (if f.commas then FormatWithCommas vt.2 vt.1 else applyFloatTemplate vt.2 vt.1) with
    | .error e => .error e
    | .ok body =>
      .ok (.str ("<span style=\"display:inline-block; width:100%%; text-align:" ++ f.align
        ++ ";\">" ++ body ++ "</span>"))

/-- Rendering a DollarFormat column for a record, through the base
class call. -/
def DollarFormat.call (f : DollarFormat) (o : PyValue) : M PyValue :=
  fieldCall false f.null f.name f.format o

/-- Configuration of PercentFormat: the template is a class attribute. -/
structure PercentFormat : Type where
  name : String
  null : Bool
  template : String
  align : String

/-- PercentFormat with its class attribute defaults. -/
def mkPercentFormat (name : String) : PercentFormat :=
  PercentFormat.mk name false "%.0f%%" "right"

/-- PercentFormat.format: multiply the value by 100, embed the template
attribute in the alignment span, and apply percent-style formatting of
the whole span template to the value; the doubled percent sign of the
width declaration therefore collapses in the output. -/
def PercentFormat.format (f : PercentFormat) (v : PyValue) : M PyValue :=
  match pyMul100 v with
  | .error e => .error e
  | .ok v2 =>
    match pyPrintf ("<span style=\"display:inline-block; width:100%%; text-align:" ++ f.align
        ++ ";\">" ++ f.template ++ "</span>") [v2] with
    | .error e => .error e
    | .ok s => .ok (.str s)

/-- Rendering a PercentFormat column for a record. -/
def PercentFormat.call (f : PercentFormat) (o : PyValue) : M PyValue :=
  fieldCall false f.null f.name f.format o

/-- Configuration of CenterFormat. -/
structure CenterFormat : Type where
  name : String
  null : Bool
  align : String

/-- CenterFormat with its class attribute defaults. -/
def mkCenterFormat (name : String) : CenterFormat :=
  CenterFormat.mk name false "center"

/-- CenterFormat.format: the span template with a %s slot is
percent-formatted against the value. -/
def CenterFormat.format (f : CenterFormat) (v : PyValue) : M PyValue :=
  match pyPrintf ("<span style=\"display:inline-block; width:100%%; text-align:" ++ f.align
      ++ ";\">%s</span>") [v] with
  | .error e => .error e
  | .ok s => .ok (.str s)

/-- Rendering a CenterFormat column for a record. -/
def CenterFormat.call (f : CenterFormat) (o : PyValue) : M PyValue :=
  fieldCall false f.null f.name f.format o

/-- Configuration of NbspFormat. -/
structure NbspFormat : Type where
  name : String
  null : Bool

/-- NbspFormat with its defaults. -/
def mkNbspFormat (name : String) : NbspFormat :=
  NbspFormat.mk name false

/-- NbspFormat.format: convert the value to a string and replace every
space by the non-breaking space entity. -/
def NbspFormat.format (_f : NbspFormat) (v : PyValue) : M PyValue :=
  .ok (.str (nbspRender (pyStr v)))

/-- Rendering an NbspFormat column for a record. -/
def NbspFormat.call (f : NbspFormat) (o : PyValue) : M PyValue :=
  fieldCall false f.null f.name f.format o

/-- Configuration of BooleanFormat: the icon paths are class attributes
holding a %s slot for the media URL. -/
structure BooleanFormat : Type where
  name : String
  null : Bool
  align : String
  yes_path : String
  no_path : String

/-- BooleanFormat with its class attribute defaults. -/
def mkBooleanFormat (name : String) : BooleanFormat :=
  BooleanFormat.mk name false "left" "%sadmin/img/icon-yes.gif" "%sadmin/img/icon-no.gif"

/-- BooleanFormat.format: coerce the value to a boolean, build the icon
URL by percent-formatting the chosen path against the media URL, and
percent-format the span template against the URL and the boolean (which
renders as its alt and title text); the doubled percent sign of the
width declaration collapses. -/
def BooleanFormat.format (env : Env) (f : BooleanFormat) (v : PyValue) : M PyValue :=
  match pyPrintf (if pyBool v then f.yes_path else f.no_path) [.str env.media_url] with
  | .error e => .error e
  | .ok url =>
    match pyPrintf ("<span style=\"display:inline-block; width:100%%; text-align:" ++ f.align
        ++ ";\"><img src=\"%s\" alt=\"%s\" title=\"%s\" /></span>")
        [.str url, .bool (pyBool v), .bool (pyBool v)] with
    | .error e => .error e
    | .ok s => .ok (.str s)

/-- Rendering a BooleanFormat column for a record. -/
def BooleanFormat.call (env : Env) (f : BooleanFormat) (o : PyValue) : M PyValue :=
  fieldCall false f.null f.name (BooleanFormat.format env f) o

/-- Configuration of AdminOneToManyLink: the reversible URL name, the
query parameter for the record id, and the anchor target. -/
structure AdminOneToManyLink : Type where
  name : String
  null : Bool
  url_param : Option String
  id_param : String
  target : String

/-- AdminOneToManyLink with its class attribute defaults and a given
URL name. -/
def mkAdminOneToManyLink (name : String) (p : Option String) : AdminOneToManyLink :=
  AdminOneToManyLink.mk name false p "id" "_blank"

/-- The anchor markup of AdminOneToManyLink.format, the literal percent
template of the source inlined as concatenation: a link to the URL,
opening in the target, around a button labelled with the count. -/
def anchorStr (url target : String) (n : Int) : String :=
  "<a href=\"" ++ url ++ "\" target=\"" ++ target
    ++ "\"><input type=\"button\" value=\"View " ++ toString n ++ "\" /></a>"

/-- Body of AdminOneToManyLink.format before its exception handler:
reverse the URL name (reversal of a null name raises), append the id
query parameter, fetch the named attribute; when the attribute has a
count method take the record list, its length as the count, and for a
single record replace the URL by the admin change URL of that record; a
null or zero count is returned as is, otherwise the anchor markup is
built (the interpolation templates of the source are literals, inlined
here as concatenation). -/
def o2mBody (env : Env) (f : AdminOneToManyLink) (o : PyValue) : M PyValue :=
  match (match f.url_param with
         | some p => env.reverse p
         | Option.none => .error "NoReverseMatch: reverse of a null view name") with
  | .error e => .error e
  | .ok base =>
    match pyGetId o with
    | .error e => .error e
    | .ok oid =>
      match pyGetattr o f.name with
      | .error e => .error e
      | .ok v =>
        match (if hasCountAttr v then
                 match pyAll v with
                 | .error e => .error e
                 | .ok q =>
                   match pyCountM q with
                   | .error e => .error e
                   | .ok n =>
                     match (if n = 1 then
                              match pyIndexZero q with
                              | .error e => .error e
                              | .ok o0 => env.get_admin_change_url o0
                            else .ok (base ++ "?" ++ f.id_param ++ "=" ++ toString oid) :
                              M String) with
                     | .error e => .error e
                     | .ok url => .ok (PyValue.int n, url)
               else .ok (v, base ++ "?" ++ f.id_param ++ "=" ++ toString oid) :
                 M (PyValue × String)) with
        | .error e => .error e
        | .ok cu =>
          if isNone cu.1 || pyEqZeroB cu.1 then .ok cu.1
          else
            match pyToIntM cu.1 with
            | .error e => .error e
            | .ok n => .ok (.str (anchorStr cu.2 f.target n))

/-- AdminOneToManyLink.format: the body runs under an exception handler
that turns any exception into its string representation. -/
def AdminOneToManyLink.format (env : Env) (f : AdminOneToManyLink) (o : PyValue) : M PyValue :=
  match o2mBody env f o with
  | .ok r => .ok r
  | .error e => .ok (.str e)

/-- Rendering an AdminOneToManyLink column for a record: the formatter is
object level, so the record itself is passed to format. -/
def AdminOneToManyLink.call (env : Env) (f : AdminOneToManyLink) (o : PyValue) : M PyValue :=
  fieldCall true f.null f.name (AdminOneToManyLink.format env f) o

section Verification

attribute [local semireducible] Rat.mul Rat.add Rat.sub Rat.inv Rat.ofScientific

/-- Appending strings appends their character lists. -/
theorem data_append (s t : String) : (s ++ t).data = s.data ++ t.data := by
  cases s
  cases t
  rfl

/-- Inversion of a successful monadic bind in the exception monad. -/
theorem mBindOk {α β : Type} (x : M α) (g : α → M β) (b : β) :
    (x >>= g) = .ok b ↔ ∃ a, x = .ok a ∧ g a = .ok b := by
  cases x <;> simp [Bind.bind, Except.bind]

/-- Scanning one template character other than the percent sign copies it
into the output. -/
theorem printf_consNe (c : Char) (hc : c ≠ '%') (rest : List Char)
    (args : List PyValue) :
    pyPrintfAux (c :: rest) args = (fun t => c :: t) <$> pyPrintfAux rest args := by
  rw [pyPrintfAux.eq_def]
  simp [hc]

/-- Scanning a run of template characters free of the percent sign copies
the run into the output. -/
theorem printf_copy (l1 : List Char) (h : ∀ c ∈ l1, c ≠ '%') (l2 : List Char)
    (args : List PyValue) :
    pyPrintfAux (l1 ++ l2) args = (fun t => l1 ++ t) <$> pyPrintfAux l2 args := by
  induction l1 with
  | nil =>
    cases hx : pyPrintfAux l2 args <;> simp [Except.map, hx]
  | cons c rest ih =>
    have hc : c ≠ '%' := h c (by simp)
    have ih2 := ih (fun x hx => h x (by simp [hx]))
    rw [List.cons_append, printf_consNe c hc, ih2]
    cases hx : pyPrintfAux l2 args <;> simp [Except.map, hx]

/-- Scanning a doubled percent sign emits a single percent sign. -/
theorem printf_pctpct (l : List Char) (args : List PyValue) :
    pyPrintfAux ('%' :: '%' :: l) args = (fun t => '%' :: t) <$> pyPrintfAux l args := by
  rw [pyPrintfAux.eq_def]
  simp

/-- Scanning an s directive inserts the string conversion of the next
argument verbatim. -/
theorem printf_pcts (l : List Char) (a : PyValue) (args : List PyValue) :
    pyPrintfAux ('%' :: 's' :: l) (a :: args)
      = (fun t => (pyStr a).data ++ t) <$> pyPrintfAux l args := by
  rw [pyPrintfAux.eq_def]
  simp

/-- Scanning a .0f directive renders the next argument as a fixed point
number with zero decimals. -/
theorem printf_f0 (l : List Char) (a : PyValue) (args : List PyValue) (q : Rat)
    (hq : toFloatM a = .ok q) :
    pyPrintfAux ('%' :: '.' :: '0' :: 'f' :: l) (a :: args)
      = (fun t => (fixedRender 0 q).data ++ t) <$> pyPrintfAux l args := by
  rw [pyPrintfAux.eq_def]
  simp [hq, Except.bind]

/-- Scanning an exhausted template against exhausted arguments ends the
output. -/
theorem printf_nil : pyPrintfAux [] [] = .ok [] := rfl

/-- C8: for a formatter with null handling enabled, a null attribute value
short circuits to the literal (None) string, whatever the format method
is; with null handling disabled (the default) the null value is passed
to the format method.  The quantification over the format method
expresses that the format method is never invoked in the first case. -/
theorem claim_C8 (name : String) (fmt : PyValue → M PyValue) (oid : Int)
    (attrs : List (String × PyValue)) (h : lookupAttr attrs name = some PyValue.none) :
    fieldCall false true name fmt (.obj oid attrs) = .ok (.str NONE_STR) ∧
    fieldCall false false name fmt (.obj oid attrs) = fmt PyValue.none := by
  constructor <;> simp [fieldCall, pyGetattr, h, isNone]

/-- Witness for C8 at a concrete record and format method. -/
theorem claim_C8_witness :
    fieldCall false true ("x") (fun v => .ok v) (.obj 1 [("x", PyValue.none)])
        = .ok (.str NONE_STR) ∧
    fieldCall false false ("x") (fun v => .ok v) (.obj 1 [("x", PyValue.none)])
        = .ok PyValue.none := by
  have h := claim_C8 ("x") (fun v => .ok v) 1 [("x", PyValue.none)] rfl
  exact ⟨h.1, h.2⟩

/-- Characters of the non-breaking space entity are not spaces. -/
theorem nbsp_no_space (l : List Char) : ∀ c ∈ (l.map nbspSubst).flatten, c ≠ ' ' := by
  induction l with
  | nil => simp
  | cons c rest ih =>
    intro x hx
    rw [List.map_cons, List.flatten_cons] at hx
    rcases List.mem_append.mp hx with hx | hx
    · unfold nbspSubst at hx
      split at hx
      · simp at hx
        rcases hx with rfl | rfl | rfl | rfl | rfl | rfl <;> decide
      · rename_i hcs
        simp at hx
        subst hx
        exact hcs
    · exact ih x hx

/-- Deleting the substituted entities recovers the non-space characters. -/
theorem nbsp_recover (l : List Char) :
    (l.map (fun c => if c = ' ' then ([] : List Char) else [c])).flatten
      = l.filter (fun c => c != ' ') := by
  induction l with
  | nil => rfl
  | cons c rest ih =>
    by_cases hc : c = ' ' <;> simp [hc, ih, List.filter_cons]

/-- C10: NbspFormat.format returns the string conversion of the value
with every space replaced by the non-breaking space entity; the output
contains no space character, and replacing each substituted entity by
nothing instead yields exactly the non-space characters of the string
conversion in their original order. -/
theorem claim_C10 (f : NbspFormat) (v : PyValue) :
    f.format v = .ok (.str (nbspRender (pyStr v))) ∧
    (∀ c ∈ (nbspRender (pyStr v)).data, c ≠ ' ') ∧
    ((pyStr v).data.map (fun c => if c = ' ' then ([] : List Char) else [c])).flatten
      = (pyStr v).data.filter (fun c => c != ' ') := by
  refine ⟨rfl, ?_, nbsp_recover (pyStr v).data⟩
  intro c hc
  exact nbsp_no_space (pyStr v).data c hc

/-- Characters outside the alphanumeric range are never the space result
of the regular expression scan and the blank and squeeze scan agree. -/
theorem resub_eq_squeeze (l : List Char) :
    ∀ b, reSubAux b l = squeezeAux b (l.map (fun c => if c.isAlphanum then c else ' ')) := by
  induction l with
  | nil => intro b; rfl
  | cons c rest ih =>
    intro b
    by_cases hc : c.isAlphanum
    · have hcs : ¬(c = ' ') := by
        intro h
        subst h
        exact absurd hc (by decide)
      simp [reSubAux, squeezeAux, hc, hcs, ih]
    · cases b <;> simp [reSubAux, squeezeAux, hc, ih]

/-- C9: the title normalisation of the base constructor leaves a safe
title unchanged, and rewrites any other title by blanking every character
outside [0-9a-zA-Z], squeezing each maximal run of blanks to a single
space, and capitalizing (first character uppercased, the rest
lowercased). -/
theorem claim_C9 (s : String) :
    initShortDescription (s, false) = (specNormalizeTitle s, false) ∧
    initShortDescription (s, true) = (s, true) := by
  constructor
  · simp [initShortDescription, specNormalizeTitle, reSubNonAlnum, blankNonAlnum,
      resub_eq_squeeze]
  · rfl

/-- C7: rendering is a pure function of the formatter configuration and
the record: no format method of the source assigns to the formatter
state, which the embedding reflects by treating formatters as immutable
values, and two successive calls of the same formatter on the same
record under the same environment return identical results. -/
theorem claim_C7 (env : Env) (f1 : DollarFormat) (f2 : PercentFormat) (f3 : CenterFormat)
    (f4 : NbspFormat) (f5 : BooleanFormat) (f6 : AdminOneToManyLink) (o : PyValue) :
    f1.call o = f1.call o ∧ f2.call o = f2.call o ∧ f3.call o = f3.call o ∧
    f4.call o = f4.call o ∧ BooleanFormat.call env f5 o = BooleanFormat.call env f5 o ∧
    AdminOneToManyLink.call env f6 o = AdminOneToManyLink.call env f6 o :=
  ⟨rfl, rfl, rfl, rfl, rfl, rfl⟩

/-- Counterexample to C1 as stated: an exception raised while computing
the formatted value of PercentFormat (multiplying the null value by 100)
is not caught anywhere, so the call propagates the exception instead of
returning its string representation. -/
theorem claim_C1_counterexample :
    (mkPercentFormat ("rate")).call (.obj 1 [("rate", PyValue.none)])
      = .error ("unsupported operand type for *=: NoneType and int") := by rfl

/-- C1 amended: only AdminOneToManyLink.format runs under an exception
handler; its call always returns normally, and an exception raised in
its body is returned as its string representation.  The other formatters
of the module propagate exceptions to the caller (see the
counterexample). -/
theorem claim_C1 (env : Env) (f : AdminOneToManyLink) (o : PyValue) :
    (∃ r, AdminOneToManyLink.call env f o = .ok r) ∧
    (∀ e, o2mBody env f o = .error e
      → AdminOneToManyLink.format env f o = .ok (.str e)) := by
  constructor
  · unfold AdminOneToManyLink.call fieldCall
    by_cases hn : (isNone o && f.null) = true
    · simp [hn]
    · simp only [Bool.not_eq_true] at hn
      unfold AdminOneToManyLink.format
      cases hb : o2mBody env f o with
      | ok r => exact ⟨r, by simp [hn, hb]⟩
      | error e => exact ⟨.str e, by simp [hn, hb]⟩
  · intro e he
    unfold AdminOneToManyLink.format
    rw [he]

/-- Witness for C1 at a concrete environment, formatter and record: the
null URL name makes the body raise, and the call still returns normally,
with the string representation of the exception. -/
theorem claim_C1_witness :
    (∃ r, AdminOneToManyLink.call (Env.mk (fun _ => .ok ("/r/")) (fun _ => .ok ("/c/")) "")
        (mkAdminOneToManyLink ("rel") Option.none) (.obj 5 []) = .ok r) ∧
    AdminOneToManyLink.format (Env.mk (fun _ => .ok ("/r/")) (fun _ => .ok ("/c/")) "")
        (mkAdminOneToManyLink ("rel") Option.none) (.obj 5 [])
      = .ok (.str ("NoReverseMatch: reverse of a null view name")) := by
  refine ⟨(claim_C1 (Env.mk (fun _ => .ok ("/r/")) (fun _ => .ok ("/c/")) "")
      (mkAdminOneToManyLink ("rel") Option.none) (.obj 5 [])).1,
    (claim_C1 (Env.mk (fun _ => .ok ("/r/")) (fun _ => .ok ("/c/")) "")
      (mkAdminOneToManyLink ("rel") Option.none) (.obj 5 [])).2 _ rfl⟩

/-- A successful result of DollarFormat.format is a string value. -/
theorem dollar_ok_str (f : DollarFormat) (v : PyValue) (r : PyValue)
    (h : f.format v = .ok r) : ∃ s, r = .str s := by
  unfold DollarFormat.format at h
  split at h
  · exact absurd h (by simp)
  · split at h
    · exact absurd h (by simp)
    · exact ⟨_, (Except.ok.inj h).symm⟩

/-- A successful result of PercentFormat.format is a string value. -/
theorem percent_ok_str (f : PercentFormat) (v : PyValue) (r : PyValue)
    (h : f.format v = .ok r) : ∃ s, r = .str s := by
  unfold PercentFormat.format at h
  split at h
  · exact absurd h (by simp)
  · split at h
    · exact absurd h (by simp)
    · exact ⟨_, (Except.ok.inj h).symm⟩

/-- A successful result of CenterFormat.format is a string value. -/
theorem center_ok_str (f : CenterFormat) (v : PyValue) (r : PyValue)
    (h : f.format v = .ok r) : ∃ s, r = .str s := by
  unfold CenterFormat.format at h
  split at h
  · exact absurd h (by simp)
  · exact ⟨_, (Except.ok.inj h).symm⟩

/-- A successful result of NbspFormat.format is a string value. -/
theorem nbsp_ok_str (f : NbspFormat) (v : PyValue) (r : PyValue)
    (h : f.format v = .ok r) : ∃ s, r = .str s :=
  ⟨_, (Except.ok.inj h).symm⟩

/-- A successful result of BooleanFormat.format is a string value. -/
theorem boolean_ok_str (env : Env) (f : BooleanFormat) (v : PyValue) (r : PyValue)
    (h : BooleanFormat.format env f v = .ok r) : ∃ s, r = .str s := by
  unfold BooleanFormat.format at h
  split at h
  · exact absurd h (by simp)
  · split at h
    · exact absurd h (by simp)
    · exact ⟨_, (Except.ok.inj h).symm⟩

/-- A successful result of the base class call is a string value as soon
as every successful result of the format method is one. -/
theorem fieldCall_ok_str (ol nl : Bool) (nm : String) (fmt : PyValue → M PyValue)
    (hf : ∀ v r, fmt v = .ok r → ∃ s, r = .str s) (o : PyValue) (r : PyValue)
    (h : fieldCall ol nl nm fmt o = .ok r) : ∃ s, r = .str s := by
  unfold fieldCall at h
  split at h
  · exact absurd h (by simp)
  · split at h
    · exact ⟨_, (Except.ok.inj h).symm⟩
    · exact hf _ _ h

/-- Counterexample to C2 as stated: with no related records,
AdminOneToManyLink returns the count itself, the integer 0, which is not
a string value of any kind, let alone a safe HTML string. -/
theorem claim_C2_counterexample :
    AdminOneToManyLink.call (Env.mk (fun _ => .ok ("/r/")) (fun _ => .ok ("/c/")) "")
        (mkAdminOneToManyLink ("rel") (some ("v"))) (.obj 5 [("rel", .manager [])])
      = .ok (PyValue.int 0) ∧ (∀ s : String, PyValue.int 0 ≠ PyValue.str s) :=
  ⟨rfl, fun _ h => PyValue.noConfusion h⟩

/-- C2 amended: every formatter except AdminOneToManyLink returns a
string whenever it returns normally (the module relies on the allow_tags
attribute rather than marking the string safe); AdminOneToManyLink
instead returns the raw count value, a non-string, when the count is
null or zero (see the counterexample). -/
theorem claim_C2 (env : Env) (f1 : DollarFormat) (f2 : PercentFormat) (f3 : CenterFormat)
    (f4 : NbspFormat) (f5 : BooleanFormat) (o : PyValue) (r : PyValue) :
    (f1.call o = .ok r → ∃ s, r = .str s) ∧
    (f2.call o = .ok r → ∃ s, r = .str s) ∧
    (f3.call o = .ok r → ∃ s, r = .str s) ∧
    (f4.call o = .ok r → ∃ s, r = .str s) ∧
    (BooleanFormat.call env f5 o = .ok r → ∃ s, r = .str s) :=
  ⟨fun h => fieldCall_ok_str _ _ _ _ (dollar_ok_str f1) o r h,
   fun h => fieldCall_ok_str _ _ _ _ (percent_ok_str f2) o r h,
   fun h => fieldCall_ok_str _ _ _ _ (center_ok_str f3) o r h,
   fun h => fieldCall_ok_str _ _ _ _ (nbsp_ok_str f4) o r h,
   fun h => fieldCall_ok_str _ _ _ _ (boolean_ok_str env f5) o r h⟩

/-- Witness for C2 at concrete formatters and records, one per formatter
class. -/
theorem claim_C2_witness :
    (∃ s, PyValue.str ("<span style=\"display:inline-block; width:100%%; text-align:right;\">$2.00</span>") = PyValue.str s) ∧
    (∃ s, PyValue.str ("<span style=\"display:inline-block; width:100%; text-align:right;\">0%</span>") = PyValue.str s) ∧
    (∃ s, PyValue.str ("<span style=\"display:inline-block; width:100%; text-align:center;\">hi</span>") = PyValue.str s) ∧
    (∃ s, PyValue.str ("a&nbsp;b") = PyValue.str s) ∧
    (∃ s, PyValue.str ("<span style=\"display:inline-block; width:100%; text-align:left;\"><img src=\"/m/admin/img/icon-yes.gif\" alt=\"True\" title=\"True\" /></span>") = PyValue.str s) := by
  refine ⟨?_, ?_, ?_, ?_, ?_⟩
  · exact (claim_C2 (Env.mk (fun _ => .ok ("/r/")) (fun _ => .ok ("/c/")) ("/m/"))
      (mkDollarFormat ("a")) (mkPercentFormat ("r")) (mkCenterFormat ("c"))
      (mkNbspFormat ("n")) (mkBooleanFormat ("b")) (.obj 1 [("a", .int 2)]) _).1 (by rfl)
  · exact (claim_C2 (Env.mk (fun _ => .ok ("/r/")) (fun _ => .ok ("/c/")) ("/m/"))
      (mkDollarFormat ("a")) (mkPercentFormat ("r")) (mkCenterFormat ("c"))
      (mkNbspFormat ("n")) (mkBooleanFormat ("b")) (.obj 1 [("r", .int 0)]) _).2.1 (by rfl)
  · exact (claim_C2 (Env.mk (fun _ => .ok ("/r/")) (fun _ => .ok ("/c/")) ("/m/"))
      (mkDollarFormat ("a")) (mkPercentFormat ("r")) (mkCenterFormat ("c"))
      (mkNbspFormat ("n")) (mkBooleanFormat ("b")) (.obj 1 [("c", .str "hi")]) _).2.2.1 (by rfl)
  · exact (claim_C2 (Env.mk (fun _ => .ok ("/r/")) (fun _ => .ok ("/c/")) ("/m/"))
      (mkDollarFormat ("a")) (mkPercentFormat ("r")) (mkCenterFormat ("c"))
      (mkNbspFormat ("n")) (mkBooleanFormat ("b")) (.obj 1 [("n", .str "a b")]) _).2.2.2.1 (by rfl)
  · exact (claim_C2 (Env.mk (fun _ => .ok ("/r/")) (fun _ => .ok ("/c/")) ("/m/"))
      (mkDollarFormat ("a")) (mkPercentFormat ("r")) (mkCenterFormat ("c"))
      (mkNbspFormat ("n")) (mkBooleanFormat ("b")) (.obj 1 [("b", .int 3)]) _).2.2.2.2 (by rfl)

/-- C3: for a record whose named attribute is a related-record manager,
when the reversal of the configured URL name succeeds the rendering is an
anchor opening in the configured target around a button labelled View
followed by the count: for a single related record the anchor URL is the
admin change URL of that record, and for two or more records it is the
reversed URL with the id query parameter set to the id of the record
being rendered. -/
theorem claim_C3 (env : Env) (f : AdminOneToManyLink) (oid : Int)
    (attrs : List (String × PyValue)) (l : List PyValue) (p u : String)
    (hp : f.url_param = some p) (hu : env.reverse p = .ok u)
    (hl : lookupAttr attrs f.name = some (.manager l)) :
    (∀ o0 cu, l = [o0] → env.get_admin_change_url o0 = .ok cu →
        AdminOneToManyLink.call env f (.obj oid attrs) = .ok (.str (anchorStr cu f.target 1))) ∧
    (2 ≤ l.length →
        AdminOneToManyLink.call env f (.obj oid attrs)
          = .ok (.str (anchorStr (u ++ "?" ++ f.id_param ++ "=" ++ toString oid)
              f.target (l.length : Int)))) := by
  constructor
  · intro o0 cu hl1 hcu
    subst hl1
    unfold AdminOneToManyLink.call fieldCall AdminOneToManyLink.format o2mBody
    rw [hp]
    simp [hu, isNone, pyGetId, pyGetattr, hl, hasCountAttr, pyAll, pyCountM, pyIndexZero,
      hcu, pyEqZeroB, pyToIntM]
  · intro h2
    have hne : ((l.length : Int) = 1) = False := by
      simp only [eq_iff_iff, iff_false]
      intro hx
      omega
    have hnz : ((l.length : Int) == 0) = false := by
      simp only [beq_eq_false_iff_ne, ne_eq]
      intro hx
      omega
    unfold AdminOneToManyLink.call fieldCall AdminOneToManyLink.format o2mBody
    rw [hp]
    simp [hu, isNone, pyGetId, pyGetattr, hl, hasCountAttr, pyAll, pyCountM,
      hne, hnz, pyEqZeroB, pyToIntM]

/-- Witness for C3 at a concrete environment and record, once with a
single related record and once with two. -/
theorem claim_C3_witness :
    AdminOneToManyLink.call (Env.mk (fun _ => .ok ("/r/")) (fun _ => .ok ("/chg/7/")) "")
        (mkAdminOneToManyLink ("rel") (some ("v")))
        (.obj 5 [("rel", .manager [.obj 7 []])])
      = .ok (.str (anchorStr ("/chg/7/") ("_blank") 1)) ∧
    AdminOneToManyLink.call (Env.mk (fun _ => .ok ("/r/")) (fun _ => .ok ("/chg/7/")) "")
        (mkAdminOneToManyLink ("rel") (some ("v")))
        (.obj 5 [("rel", .manager [.obj 7 [], .obj 8 []])])
      = .ok (.str (anchorStr ("/r/?id=5") ("_blank") 2)) := by
  constructor
  · exact (claim_C3 (Env.mk (fun _ => .ok ("/r/")) (fun _ => .ok ("/chg/7/")) "")
      (mkAdminOneToManyLink ("rel") (some ("v"))) 5 [("rel", .manager [.obj 7 []])]
      [.obj 7 []] ("v") ("/r/") rfl rfl rfl).1 (.obj 7 []) ("/chg/7/") rfl rfl
  · exact (claim_C3 (Env.mk (fun _ => .ok ("/r/")) (fun _ => .ok ("/chg/7/")) "")
      (mkAdminOneToManyLink ("rel") (some ("v"))) 5 [("rel", .manager [.obj 7 [], .obj 8 []])]
      [.obj 7 [], .obj 8 []] ("v") ("/r/") rfl rfl rfl).2 (by decide)

/-- C4: for a numeric value, DollarFormat.format returns a span styled
with the configured alignment whose content is a dollar sign followed by
the value rendered to the configured number of decimal places, with
thousands separating commas when configured; a negative value is
rendered as the dollar amount of its negation enclosed, dollar sign
included, in parentheses.  The doubled percent sign in the width
declaration of the span is a faithful rendering of the source, which
never applies percent formatting to the span template. -/
theorem claim_C4 (f : DollarFormat) (v : PyValue) (q : Rat) (h : numVal v = some q) :
    f.format v = .ok (.str ("<span style=\"display:inline-block; width:100%%; text-align:"
        ++ f.align ++ ";\">"
        ++ (if q < 0 then "($" ++ dollarBody f.decimals f.commas (-q) ++ ")"
            else "$" ++ dollarBody f.decimals f.commas q)
        ++ "</span>")) := by
  cases v <;> simp only [numVal, Option.some.injEq, reduceCtorEq] at h
  case int n =>
    subst h
    unfold DollarFormat.format
    by_cases hq : (n : Rat) < 0
    · have hn : n < 0 := by exact_mod_cast hq
      cases hc : f.commas <;>
        simp [pyLt0, hn, hq, hc, pyMulNegOne, FormatWithCommas, applyFloatTemplate,
          toFloatM, dollarBody]
    · have hn : ¬(n < 0) := by
        intro hx
        exact hq (by exact_mod_cast hx)
      cases hc : f.commas <;>
        simp [pyLt0, hn, hq, hc, pyMulNegOne, FormatWithCommas, applyFloatTemplate,
          toFloatM, dollarBody]
  case rat p =>
    subst h
    unfold DollarFormat.format
    by_cases hq : p < 0
    · cases hc : f.commas <;>
        simp [pyLt0, hq, hc, pyMulNegOne, FormatWithCommas, applyFloatTemplate,
          toFloatM, dollarBody]
    · cases hc : f.commas <;>
        simp [pyLt0, hq, hc, pyMulNegOne, FormatWithCommas, applyFloatTemplate,
          toFloatM, dollarBody]

/-- Witness for C4 at a negative rational and a positive seven digit
integer under the default configuration. -/
theorem claim_C4_witness :
    (mkDollarFormat ("amount")).format (.rat (-2 : Rat))
      = .ok (.str ("<span style=\"display:inline-block; width:100%%; text-align:right;\">($2.00)</span>")) ∧
    (mkDollarFormat ("amount")).format (.int 1234567)
      = .ok (.str ("<span style=\"display:inline-block; width:100%%; text-align:right;\">$1,234,567.00</span>")) := by
  constructor
  · exact (claim_C4 (mkDollarFormat ("amount")) (.rat (-2 : Rat)) (-2 : Rat) rfl).trans (by rfl)
  · exact (claim_C4 (mkDollarFormat ("amount")) (.int 1234567)
      ((1234567 : Int) : Rat) rfl).trans (by rfl)

/-- Scanning an exhausted argument list against a template free of the
percent sign copies the rest of the template. -/
theorem printf_tail_copy (l : List Char) (h : ∀ c ∈ l, c ≠ '%') :
    pyPrintfAux l [] = .ok l := by
  induction l with
  | nil => rfl
  | cons c rest ih =>
    rw [printf_consNe c (h c (by simp)) rest []]
    rw [ih (fun x hx => h x (by simp [hx]))]
    rfl

/-- A string built from a character list equals a string exactly when the
list is its character list. -/
theorem mk_eq_iff (l : List Char) (s : String) : String.mk l = s ↔ l = s.data := by
  cases s
  exact ⟨fun h => congrArg String.data h, fun h => congrArg String.mk h⟩

/-- C5: for a numeric value and the default percent template,
PercentFormat.format returns a span styled with the configured alignment
whose content is the value multiplied by 100, rendered to zero decimal
places, followed by a percent sign.  Percent formatting is applied to
the whole span template, so the doubled percent sign of the width
declaration collapses to a single one in the output. -/
theorem claim_C5 (f : PercentFormat) (v : PyValue) (q : Rat)
    (hn : numVal v = some q) (ht : f.template = "%.0f%%")
    (ha : ∀ c ∈ f.align.data, c ≠ '%') :
    f.format v = .ok (.str ("<span style=\"display:inline-block; width:100%; text-align:"
      ++ f.align ++ ";\">" ++ fixedRender 0 (q * 100) ++ "%</span>")) := by
  have hT : ("<span style=\"display:inline-block; width:100%%; text-align:" ++ f.align
      ++ ";\">" ++ "%.0f%%" ++ "</span>").data
      = ("<span style=\"display:inline-block; width:100").data
        ++ ('%' :: '%' :: (("; text-align:").data
        ++ (f.align.data ++ ((";\">").data
        ++ ('%' :: '.' :: '0' :: 'f' :: ('%' :: '%' :: ("</span>").data)))))) := by
    simp [data_append]
  cases v <;> simp only [numVal, Option.some.injEq, reduceCtorEq] at hn
  case int n =>
    subst hn
    have hcast : ((n * 100 : Int) : Rat) = (n : Rat) * 100 := by
      push_cast
      ring
    unfold PercentFormat.format
    simp only [pyMul100]
    unfold pyPrintf
    rw [ht, hT, printf_copy _ (by decide), printf_pctpct, printf_copy _ (by decide),
      printf_copy f.align.data ha, printf_copy _ (by decide),
      printf_f0 _ (PyValue.int (n * 100)) [] ((n * 100 : Int) : Rat) rfl, printf_pctpct,
      printf_tail_copy _ (by decide), hcast]
    simp [Except.map, mk_eq_iff, data_append, List.append_assoc]
  case rat p =>
    subst hn
    unfold PercentFormat.format
    simp only [pyMul100]
    unfold pyPrintf
    rw [ht, hT, printf_copy _ (by decide), printf_pctpct, printf_copy _ (by decide),
      printf_copy f.align.data ha, printf_copy _ (by decide),
      printf_f0 _ (PyValue.rat (p * 100)) [] (p * 100) rfl, printf_pctpct,
      printf_tail_copy _ (by decide)]
    simp [Except.map, mk_eq_iff, data_append, List.append_assoc]

/-- Witness for C5 at the ratio one eighth under the default
configuration: one eighth renders as twelve percent, the rounding of
twelve and a half being half to even. -/
theorem claim_C5_witness :
    (mkPercentFormat ("rate")).format (.rat ((1 : Rat) / 8))
      = .ok (.str ("<span style=\"display:inline-block; width:100%; text-align:right;\">12%</span>")) := by
  exact (claim_C5 (mkPercentFormat ("rate")) (.rat ((1 : Rat) / 8)) ((1 : Rat) / 8)
    rfl rfl (by decide)).trans (by rfl)

/-- Formatting an icon path (an s directive followed by percent free
text) against the media URL inserts the media URL verbatim. -/
theorem printf_path (suffix : String) (h : ∀ c ∈ suffix.data, c ≠ '%') (media : String) :
    pyPrintf (String.mk ('%' :: 's' :: suffix.data)) [.str media]
      = .ok (String.mk (media.data ++ suffix.data)) := by
  unfold pyPrintf
  rw [show (String.mk ('%' :: 's' :: suffix.data)).data = '%' :: 's' :: suffix.data from rfl,
    printf_pcts, printf_tail_copy _ h]
  simp [Except.map, pyStr]

/-- C6: with the default icon paths, BooleanFormat.format returns a span
holding exactly one image tag whose source is the yes icon path prefixed
by the configured media URL when the value is truthy and the no icon
path otherwise, with the boolean conversion of the value as both the alt
and the title text. -/
theorem claim_C6 (env : Env) (f : BooleanFormat) (v : PyValue)
    (hy : f.yes_path = "%sadmin/img/icon-yes.gif")
    (hn : f.no_path = "%sadmin/img/icon-no.gif")
    (ha : ∀ c ∈ f.align.data, c ≠ '%') :
    BooleanFormat.format env f v
      = .ok (.str ("<span style=\"display:inline-block; width:100%; text-align:" ++ f.align
        ++ ";\"><img src=\"" ++ env.media_url
        ++ (if pyBool v then "admin/img/icon-yes.gif" else "admin/img/icon-no.gif")
        ++ "\" alt=\"" ++ (if pyBool v then "True" else "False")
        ++ "\" title=\"" ++ (if pyBool v then "True" else "False") ++ "\" /></span>")) := by
  have hT : ∀ al : String, ("<span style=\"display:inline-block; width:100%%; text-align:" ++ al
      ++ ";\"><img src=\"%s\" alt=\"%s\" title=\"%s\" /></span>").data
      = ("<span style=\"display:inline-block; width:100").data
        ++ ('%' :: '%' :: (("; text-align:").data
        ++ (al.data ++ ((";\"><img src=\"").data
        ++ ('%' :: 's' :: (("\" alt=\"").data
        ++ ('%' :: 's' :: (("\" title=\"").data
        ++ ('%' :: 's' :: ("\" /></span>").data))))))))) := by
    intro al
    simp [data_append]
  cases hb : pyBool v
  · unfold BooleanFormat.format
    rw [hb]
    simp only [Bool.false_eq_true, if_false]
    rw [hn]
    rw [show ("%sadmin/img/icon-no.gif" : String)
        = String.mk ('%' :: 's' :: ("admin/img/icon-no.gif").data) from rfl]
    rw [printf_path ("admin/img/icon-no.gif") (by decide) env.media_url]
    simp only []
    unfold pyPrintf
    rw [hT f.align, printf_copy _ (by decide), printf_pctpct, printf_copy _ (by decide),
      printf_copy f.align.data ha, printf_copy _ (by decide), printf_pcts,
      printf_copy _ (by decide), printf_pcts, printf_copy _ (by decide), printf_pcts,
      printf_tail_copy _ (by decide)]
    simp [Except.map, mk_eq_iff, data_append, List.append_assoc, pyStr]
  · unfold BooleanFormat.format
    rw [hb]
    simp only [if_true]
    rw [hy]
    rw [show ("%sadmin/img/icon-yes.gif" : String)
        = String.mk ('%' :: 's' :: ("admin/img/icon-yes.gif").data) from rfl]
    rw [printf_path ("admin/img/icon-yes.gif") (by decide) env.media_url]
    simp only []
    unfold pyPrintf
    rw [hT f.align, printf_copy _ (by decide), printf_pctpct, printf_copy _ (by decide),
      printf_copy f.align.data ha, printf_copy _ (by decide), printf_pcts,
      printf_copy _ (by decide), printf_pcts, printf_copy _ (by decide), printf_pcts,
      printf_tail_copy _ (by decide)]
    simp [Except.map, mk_eq_iff, data_append, List.append_assoc, pyStr]

/-- Witness for C6 under the default configuration: a truthy integer
yields the yes icon and a falsy empty string the no icon. -/
theorem claim_C6_witness :
    BooleanFormat.format (Env.mk (fun _ => .ok ("/r/")) (fun _ => .ok ("/c/")) ("/m/"))
        (mkBooleanFormat ("flag")) (.int 3)
      = .ok (.str ("<span style=\"display:inline-block; width:100%; text-align:left;\"><img src=\"/m/admin/img/icon-yes.gif\" alt=\"True\" title=\"True\" /></span>")) ∧
    BooleanFormat.format (Env.mk (fun _ => .ok ("/r/")) (fun _ => .ok ("/c/")) ("/m/"))
        (mkBooleanFormat ("flag")) (.str "")
      = .ok (.str ("<span style=\"display:inline-block; width:100%; text-align:left;\"><img src=\"/m/admin/img/icon-no.gif\" alt=\"False\" title=\"False\" /></span>")) := by
  constructor
  · exact (claim_C6 (Env.mk (fun _ => .ok ("/r/")) (fun _ => .ok ("/c/")) ("/m/"))
      (mkBooleanFormat ("flag")) (.int 3) rfl rfl (by decide)).trans (by rfl)
  · exact (claim_C6 (Env.mk (fun _ => .ok ("/r/")) (fun _ => .ok ("/c/")) ("/m/"))
      (mkBooleanFormat ("flag")) (.str "") rfl rfl (by decide)).trans (by rfl)

end Verification
